import Mathlib

/-!
Shallow embedding of the Go package `try` (github.com/xtdlib/try, file try.go).

Modelling choices:
* A non-nil Go `error` value is a `GoErr`: its dynamic type tag plus its
  `Error()` text.  A nilable error variable is `Option GoErr` (`none` = nil).
* A Go panic value is a `PanicValue`; `Except PanicValue α` models a function
  that either returns an `α` or unwinds.
* The call stack is modelled explicitly as a `List Frame`, head = innermost
  frame, so that `runtime.Callers(skip, pc)` and the frame-skip count of the
  envelope constructor `e` are translated literally.
* `slog` output is modelled as a `List LogEntry` accumulated in results.
* Deferred recovery (`r`, `Catch`, `CatchF`, `F`) is modelled as a function of
  the recovered panic value (`none` when no unwind is in flight) and of the
  current state of the caller-owned output slot, returning an `Outcome`:
  the panic re-raised (if any), the final state, and the emitted logs.
-/

namespace Try

/-- A Go source location: file path and line number of a frame. -/
structure Frame where
  file : String
  line : Nat
deriving DecidableEq

/-- A non-nil Go error value: its dynamic type tag and its `Error()` text. -/
structure GoErr where
  typeTag : String
  msg : String
deriving DecidableEq

/-- The type argument `T` of `Catch[T error]` / `CatchF[T error]`: either the
base `error` interface (matched by every non-nil error) or a concrete type. -/
inductive GoType where
  | errorInterface : GoType
  | concrete (tag : String) : GoType
deriving DecidableEq

/-- The Go type assertion `err.(T)` on a non-nil error value. -/
def instanceOf (er : GoErr) : GoType → Bool
  | GoType.errorInterface => true
  | GoType.concrete t => er.typeTag == t

/-- `type wrapError struct { error; pc [1]uintptr }` — the envelope panicked
by this package.  The single captured pc is modelled as the resolved frame.
Inside the package `e` is only reached with a non-nil error (its callers
guard on `err != nil`), so the embedded cause is a `GoErr`, never nil. -/
structure wrapError where
  error : GoErr
  pc : Frame
deriving DecidableEq

/-- `func (e wrapError) Catch() error` -/
def wrapError.CatchMethod (w : wrapError) : GoErr := w.error

/-- `func (e wrapError) Unwrap() error` -/
def wrapError.Unwrap (w : wrapError) : GoErr := w.error

/-- A Go panic payload: an envelope from `e`, a raw error from the `M`
family, a string (the mismatch abort in `Catch`/`CatchF`), or any other
foreign value. -/
inductive PanicValue where
  | wrapErr (w : wrapError) : PanicValue
  | rawErr (er : GoErr) : PanicValue
  | str (s : String) : PanicValue
  | other (tag : String) : PanicValue
deriving DecidableEq

/-- Helper for `wrapError.Error`: collect characters of the reversed file
name up to (excluding) the first `/`, i.e. the suffix after the last `/`
of the original string — the literal translation of the backwards loop. -/
def baseNameRev : List Char → List Char
  | [] => []
  | c :: rest => if c == '/' then [] else c :: baseNameRev rest

/-- Last path segment of a file name, as computed by the loop in
`wrapError.Error` (the whole string when it contains no `/`). -/
def baseName (s : String) : String :=
  ⟨(baseNameRev s.data.reverse).reverse⟩

/-- `func (e wrapError) Error() string`: "file:line: msg" with the file
shortened to its last path segment. -/
def wrapError.Error (w : wrapError) : String :=
  baseName w.pc.file ++ ":" ++ toString w.pc.line ++ ": " ++ w.error.msg

/-- Severity of a structured-log record (`slog` levels used by try.go). -/
inductive Level where
  | debug : Level
  | error : Level
deriving DecidableEq

/-- One structured-log record emitted through the default `slog` logger. -/
structure LogEntry where
  level : Level
  msg : String
deriving DecidableEq

/-- Result of running a deferred catch helper: the panic it re-raises
(`none` when it returns normally), the final state of the caller-owned
slot (and any user state), and the log records it emitted. -/
structure Outcome (σ : Type) where
  panicked : Option PanicValue
  state : σ
  logs : List LogEntry
deriving DecidableEq

/-- `func r(recovered any, fn func(wrapError))` — the recovery dispatcher.
`recovered` is the value returned by `recover()` (`none` when no unwind is
in flight).  The continuation `fn` may write the state and may itself
panic; its panic propagates out of `r`. -/
def r {σ : Type} (recovered : Option PanicValue) (s : σ)
    (fn : wrapError → σ → Option PanicValue × σ) : Outcome σ :=
  match recovered with
  | none => ⟨none, s, []⟩
  | some (PanicValue.wrapErr w) =>
      let res := fn w s
      ⟨res.1, res.2, [⟨Level.debug, "try: caught: " ++ w.Error⟩]⟩
  | some v => ⟨some v, s, []⟩

/-- The abort message built in `Catch`/`CatchF` on a type mismatch:
`"try: caught error of wrong type: " + w.error.Error()`. -/
def mismatchMsg (er : GoErr) : String :=
  "try: caught error of wrong type: " ++ er.msg

/-- `func Catch[T error](errptr *T)`.  The slot is a variable of type `T`;
its current value is threaded in and the final value returned. -/
def Catch (T : GoType) (recovered : Option PanicValue) (errptr : Option GoErr) :
    Outcome (Option GoErr) :=
  r recovered errptr (fun w s =>
    if instanceOf w.error T then (none, some w.error)
    else (some (PanicValue.str (mismatchMsg w.error)), s))

/-- `func CatchF[T error](errptr *T, fn func())`.  The user follow-up `fn`
can read and write the slot (already assigned when it runs) and arbitrary
user state `σ`.  The source guard `if w.error != nil` is always true here
because the envelope's cause is non-nil by construction (see `wrapError`). -/
def CatchF {σ : Type} (T : GoType) (recovered : Option PanicValue)
    (errptr : Option GoErr) (us : σ)
    (fn : Option GoErr × σ → Option GoErr × σ) : Outcome (Option GoErr × σ) :=
  r recovered (errptr, us) (fun w s =>
    if instanceOf w.error T then (none, fn (some w.error, s.2))
    else (some (PanicValue.str (mismatchMsg w.error)), s))

/-- `func F(fn func(...any))`: hands the envelope itself to the
caller-supplied sink `fn`, modelled as a user-state transform. -/
def F {σ : Type} (recovered : Option PanicValue) (s : σ)
    (fn : wrapError → σ → σ) : Outcome σ :=
  r recovered s (fun w u => (none, fn w u))

/-- The file of this package's own frames. -/
def tryFile : String := "github.com/xtdlib/try/try.go"

/-- Frame of `runtime.Callers` itself (skip = 0 refers to it). -/
def callersFrame : Frame := ⟨"runtime/extern.go", 331⟩

/-- Frame of `e`'s own call to `runtime.Callers` (try.go line 233). -/
def eFrame : Frame := ⟨tryFile, 233⟩

/-- Frame of the `e(err)` call inside `E` (try.go line 240). -/
def EFrame : Frame := ⟨tryFile, 240⟩

/-- Frame of the `e(err)` call inside `E1` (try.go line 248). -/
def E1Frame : Frame := ⟨tryFile, 248⟩

/-- Frame of the `e(err)` call inside `E2` (try.go line 257). -/
def E2Frame : Frame := ⟨tryFile, 257⟩

/-- Frame of the `e(err)` call inside `E3` (try.go line 266). -/
def E3Frame : Frame := ⟨tryFile, 266⟩

/-- Frame of the `e(err)` call inside `E4` (try.go line 275). -/
def E4Frame : Frame := ⟨tryFile, 275⟩

/-- Frame of the `e(...)` call inside `Equal` (try.go line 362). -/
def EqualFrame : Frame := ⟨tryFile, 362⟩

/-- Frame of the `e(...)` call inside `NotEqual` (try.go line 368). -/
def NotEqualFrame : Frame := ⟨tryFile, 368⟩

/-- Frame of the `e(...)` call inside `Zero` (try.go line 375). -/
def ZeroFrame : Frame := ⟨tryFile, 375⟩

/-- Frame of the `e(...)` call inside `NotZero` (try.go line 382). -/
def NotZeroFrame : Frame := ⟨tryFile, 382⟩

/-- `runtime.Callers(skip, pc[:])` with a pc buffer of length 1: the frame
at depth `skip` in the full stack whose head (index 0) is the frame of
`runtime.Callers` itself.  A missing frame leaves the buffer zeroed. -/
def runtimeCallers (skip : Nat) (fullStack : List Frame) : Frame :=
  fullStack.getD skip ⟨"", 0⟩

/-- `func e(err error)`: builds the envelope, capturing the frame 3 levels
up (`// 3: runtime.Callers, e, E`).  `stack` is the call stack inside `e`,
head = `e`'s own frame, so the captured pc is `stack[2]` — the caller of
`e`'s caller, i.e. the original elevation call site. -/
def e (stack : List Frame) (err : GoErr) : wrapError :=
  ⟨err, runtimeCallers 3 (callersFrame :: stack)⟩

/-- `func E(err error)`: panics via `e` iff `err` is non-nil.  `stack` is
the call stack at the `try.E(...)` call site, head = the caller's frame
holding the line of that call. -/
def E (stack : List Frame) (err : Option GoErr) : Except PanicValue Unit :=
  match err with
  | none => Except.ok ()
  | some er => Except.error (PanicValue.wrapErr (e (eFrame :: EFrame :: stack) er))

/-- `func E1[A any](a A, err error) A` -/
def E1 {A : Type} (stack : List Frame) (a : A) (err : Option GoErr) :
    Except PanicValue A :=
  match err with
  | none => Except.ok a
  | some er => Except.error (PanicValue.wrapErr (e (eFrame :: E1Frame :: stack) er))

/-- `func E2[A, B any](a A, b B, err error) (A, B)` -/
def E2 {A B : Type} (stack : List Frame) (a : A) (b : B) (err : Option GoErr) :
    Except PanicValue (A × B) :=
  match err with
  | none => Except.ok (a, b)
  | some er => Except.error (PanicValue.wrapErr (e (eFrame :: E2Frame :: stack) er))

/-- `func E3[A, B, C any](a A, b B, c C, err error) (A, B, C)` -/
def E3 {A B C : Type} (stack : List Frame) (a : A) (b : B) (c : C)
    (err : Option GoErr) : Except PanicValue (A × B × C) :=
  match err with
  | none => Except.ok (a, b, c)
  | some er => Except.error (PanicValue.wrapErr (e (eFrame :: E3Frame :: stack) er))

/-- `func E4[A, B, C, D any](a A, b B, c C, d D, err error) (A, B, C, D)` -/
def E4 {A B C D : Type} (stack : List Frame) (a : A) (b : B) (c : C) (d : D)
    (err : Option GoErr) : Except PanicValue (A × B × C × D) :=
  match err with
  | none => Except.ok (a, b, c, d)
  | some er => Except.error (PanicValue.wrapErr (e (eFrame :: E4Frame :: stack) er))

/-- `func L(err error)`: logs at error level iff `err` is non-nil, never
panics, returns nothing. -/
def L (err : Option GoErr) : Unit × List LogEntry :=
  match err with
  | none => ((), [])
  | some er => ((), [⟨Level.error, er.msg⟩])

/-- `func L1[A any](a A, err error) A` -/
def L1 {A : Type} (a : A) (err : Option GoErr) : A × List LogEntry :=
  match err with
  | none => (a, [])
  | some er => (a, [⟨Level.error, er.msg⟩])

/-- `func L2[A, B any](a A, b B, err error) (A, B)` -/
def L2 {A B : Type} (a : A) (b : B) (err : Option GoErr) :
    (A × B) × List LogEntry :=
  match err with
  | none => ((a, b), [])
  | some er => ((a, b), [⟨Level.error, er.msg⟩])

/-- `func L3[A, B, C any](a A, b B, c C, err error) (A, B, C)` -/
def L3 {A B C : Type} (a : A) (b : B) (c : C) (err : Option GoErr) :
    (A × B × C) × List LogEntry :=
  match err with
  | none => ((a, b, c), [])
  | some er => ((a, b, c), [⟨Level.error, er.msg⟩])

/-- `func L4[A, B, C, D any](a A, b B, c C, d D, err error) (A, B, C, D)` -/
def L4 {A B C D : Type} (a : A) (b : B) (c : C) (d : D) (err : Option GoErr) :
    (A × B × C × D) × List LogEntry :=
  match err with
  | none => ((a, b, c, d), [])
  | some er => ((a, b, c, d), [⟨Level.error, er.msg⟩])

/-- `func M(err error)`: panics with the raw (non-enveloped) error iff
non-nil. -/
def M (err : Option GoErr) : Except PanicValue Unit :=
  match err with
  | none => Except.ok ()
  | some er => Except.error (PanicValue.rawErr er)

/-- `func M1[A any](a A, err error) A` -/
def M1 {A : Type} (a : A) (err : Option GoErr) : Except PanicValue A :=
  match err with
  | none => Except.ok a
  | some er => Except.error (PanicValue.rawErr er)

/-- `func M2[A, B any](a A, b B, err error) (A, B)` -/
def M2 {A B : Type} (a : A) (b : B) (err : Option GoErr) :
    Except PanicValue (A × B) :=
  match err with
  | none => Except.ok (a, b)
  | some er => Except.error (PanicValue.rawErr er)

/-- `func M3[A, B, C any](a A, b B, c C, err error) (A, B, C)` -/
def M3 {A B C : Type} (a : A) (b : B) (c : C) (err : Option GoErr) :
    Except PanicValue (A × B × C) :=
  match err with
  | none => Except.ok (a, b, c)
  | some er => Except.error (PanicValue.rawErr er)

/-- `func M4[A, B, C, D any](a A, b B, c C, d D, err error) (A, B, C, D)` -/
def M4 {A B C D : Type} (a : A) (b : B) (c : C) (d : D) (err : Option GoErr) :
    Except PanicValue (A × B × C × D) :=
  match err with
  | none => Except.ok (a, b, c, d)
  | some er => Except.error (PanicValue.rawErr er)

/-- The dynamic type and text of a `fmt.Errorf` result without `%w`:
a `*errors.errorString` carrying the formatted message. -/
def errorf (msg : String) : GoErr := ⟨"*errors.errorString", msg⟩

/-- `func Equal[T comparable](a, b T)`: elevates a generated error via `e`
iff `a != b`.  `fmtv` models the `%+v` formatting of a value of `α`. -/
def Equal {α : Type} [DecidableEq α] (fmtv : α → String) (stack : List Frame)
    (a b : α) : Except PanicValue Unit :=
  if a ≠ b then
    Except.error (PanicValue.wrapErr (e (eFrame :: EqualFrame :: stack)
      (errorf ("try: not equal: " ++ fmtv a ++ " != " ++ fmtv b))))
  else Except.ok ()

/-- `func NotEqual[T comparable](a, b T)`: elevates iff `a == b`. -/
def NotEqual {α : Type} [DecidableEq α] (fmtv : α → String) (stack : List Frame)
    (a b : α) : Except PanicValue Unit :=
  if a = b then
    Except.error (PanicValue.wrapErr (e (eFrame :: NotEqualFrame :: stack)
      (errorf ("try: equal: " ++ fmtv a ++ " == " ++ fmtv b))))
  else Except.ok ()

/-- `func Zero[T comparable](a T)`: `var b T` is the zero value of `T`,
passed explicitly as `zeroVal`; elevates iff `a != zeroVal`. -/
def Zero {α : Type} [DecidableEq α] (fmtv : α → String) (zeroVal : α)
    (stack : List Frame) (a : α) : Except PanicValue Unit :=
  if a ≠ zeroVal then
    Except.error (PanicValue.wrapErr (e (eFrame :: ZeroFrame :: stack)
      (errorf ("try: zero: " ++ fmtv a ++ " == " ++ fmtv zeroVal))))
  else Except.ok ()

/-- `func NotZero[T comparable](a T)`: elevates iff `a == zeroVal`. -/
def NotZero {α : Type} [DecidableEq α] (fmtv : α → String) (zeroVal : α)
    (stack : List Frame) (a : α) : Except PanicValue Unit :=
  if a = zeroVal then
    Except.error (PanicValue.wrapErr (e (eFrame :: NotZeroFrame :: stack)
      (errorf ("try: zero: " ++ fmtv a ++ " == " ++ fmtv zeroVal))))
  else Except.ok ()

/-- Claim C1: for every non-nil error, elevating it with `E` panics with an
envelope carrying the error unchanged, and `Catch` declared for the error's
exact dynamic type, or for the base error interface, recovers the panic and
assigns the original error (not the envelope) into the output slot. -/
theorem catch_roundtrip (er : GoErr) (T : GoType) (stack : List Frame)
    (slot : Option GoErr)
    (h : T = GoType.errorInterface ∨ T = GoType.concrete er.typeTag) :
    ∃ w : wrapError, E stack (some er) = Except.error (PanicValue.wrapErr w) ∧
      w.error = er ∧
      (Catch T (some (PanicValue.wrapErr w)) slot).panicked = none ∧
      (Catch T (some (PanicValue.wrapErr w)) slot).state = some er := by
  refine ⟨e (eFrame :: EFrame :: stack) er, rfl, rfl, ?_, ?_⟩ <;>
  · have hinst : instanceOf er T = true := by
      rcases h with h | h <;> subst h <;> simp [instanceOf]
    simp [Catch, r, e, hinst]

/-- Witness for C1 at the end-to-end scenario of the spec: sentinel `Err1`
elevated and caught with the base error interface type. -/
theorem catch_roundtrip_witness :
    ∃ w : wrapError,
      E [⟨"main.go", 38⟩] (some ⟨"*errors.errorString", "Err1"⟩)
        = Except.error (PanicValue.wrapErr w) ∧
      w.error = ⟨"*errors.errorString", "Err1"⟩ ∧
      (Catch GoType.errorInterface (some (PanicValue.wrapErr w)) none).panicked = none ∧
      (Catch GoType.errorInterface (some (PanicValue.wrapErr w)) none).state
        = some ⟨"*errors.errorString", "Err1"⟩ :=
  catch_roundtrip ⟨"*errors.errorString", "Err1"⟩ GoType.errorInterface
    [⟨"main.go", 38⟩] none (Or.inl rfl)

/-- Claim C2: for every arity k in 0..4, a nil trailing error makes the E
family return its k pass-through values unchanged without panicking. -/
theorem e_family_nil_identity {A B C D : Type} (stack : List Frame)
    (a : A) (b : B) (c : C) (d : D) :
    E stack none = Except.ok () ∧
    E1 stack a none = Except.ok a ∧
    E2 stack a b none = Except.ok (a, b) ∧
    E3 stack a b c none = Except.ok (a, b, c) ∧
    E4 stack a b c d none = Except.ok (a, b, c, d) :=
  ⟨rfl, rfl, rfl, rfl, rfl⟩

/-- Claim C3: when the recovered envelope's cause fails the type check of
`Catch`/`CatchF`, the helper panics with the descriptive mismatch message
(which literally contains the cause's text), the slot keeps its prior value,
and the resulting string panic is re-raised — not caught — by any further
`Catch` of this package. -/
theorem catch_mismatch_aborts {σ : Type} (T : GoType) (w : wrapError)
    (slot : Option GoErr) (us : σ) (fn : Option GoErr × σ → Option GoErr × σ)
    (h : instanceOf w.error T = false) :
    (Catch T (some (PanicValue.wrapErr w)) slot).panicked
        = some (PanicValue.str (mismatchMsg w.error)) ∧
    (Catch T (some (PanicValue.wrapErr w)) slot).state = slot ∧
    (CatchF T (some (PanicValue.wrapErr w)) slot us fn).panicked
        = some (PanicValue.str (mismatchMsg w.error)) ∧
    (CatchF T (some (PanicValue.wrapErr w)) slot us fn).state = (slot, us) ∧
    (∃ pre, mismatchMsg w.error = pre ++ w.error.msg) ∧
    (∀ (T2 : GoType) (slot2 : Option GoErr),
      Catch T2 (some (PanicValue.str (mismatchMsg w.error))) slot2
        = ⟨some (PanicValue.str (mismatchMsg w.error)), slot2, []⟩) := by
  refine ⟨?_, ?_, ?_, ?_, ⟨"try: caught error of wrong type: ", rfl⟩, ?_⟩ <;>
    simp [Catch, CatchF, r, h]

/-- Witness for C3: an `*errors.errorString` cause caught by a `Catch`
declared for the unrelated concrete type `*main.myErr`. -/
theorem catch_mismatch_aborts_witness :
    (Catch (GoType.concrete "*main.myErr")
        (some (PanicValue.wrapErr ⟨⟨"*errors.errorString", "boom"⟩, ⟨"main.go", 12⟩⟩))
        none).panicked
      = some (PanicValue.str (mismatchMsg ⟨"*errors.errorString", "boom"⟩)) ∧
    (Catch (GoType.concrete "*main.myErr")
        (some (PanicValue.wrapErr ⟨⟨"*errors.errorString", "boom"⟩, ⟨"main.go", 12⟩⟩))
        none).state = none := by
  have h := catch_mismatch_aborts (GoType.concrete "*main.myErr")
    ⟨⟨"*errors.errorString", "boom"⟩, ⟨"main.go", 12⟩⟩ none (0 : Nat)
    (fun p => p) (by decide)
  exact ⟨h.1, h.2.1⟩

/-- Claim C4: a recovered panic value that is not a `wrapError` envelope is
re-raised by `r` unchanged — hence also by `Catch`, `CatchF` and `F` — and
the state is untouched; it stays observable by an outer handler. -/
theorem foreign_repanic {σ : Type} (v : PanicValue) (s : σ)
    (fn : wrapError → σ → Option PanicValue × σ) (T : GoType)
    (slot : Option GoErr) (us : σ) (fnC : Option GoErr × σ → Option GoErr × σ)
    (fnF : wrapError → σ → σ)
    (h : ∀ w : wrapError, v ≠ PanicValue.wrapErr w) :
    r (some v) s fn = ⟨some v, s, []⟩ ∧
    Catch T (some v) slot = ⟨some v, slot, []⟩ ∧
    CatchF T (some v) slot us fnC = ⟨some v, (slot, us), []⟩ ∧
    F (some v) s fnF = ⟨some v, s, []⟩ := by
  cases v with
  | wrapErr w => exact absurd rfl (h w)
  | rawErr er => exact ⟨rfl, rfl, rfl, rfl⟩
  | str s2 => exact ⟨rfl, rfl, rfl, rfl⟩
  | other t => exact ⟨rfl, rfl, rfl, rfl⟩

/-- Witness for C4: a foreign string panic passes through `r` unmodified. -/
theorem foreign_repanic_witness :
    r (some (PanicValue.str "boom")) (0 : Nat) (fun _ s => (none, s))
      = ⟨some (PanicValue.str "boom"), 0, []⟩ := by
  have h := foreign_repanic (PanicValue.str "boom") (0 : Nat)
    (fun _ s => (none, s)) GoType.errorInterface none 0 (fun p => p)
    (fun _ u => u) (fun w hw => PanicValue.noConfusion hw)
  exact h.1

/-- Claim C5: with no unwind in flight (recovered value nil), `r` — and so
`Catch`, `CatchF` and `F` — is a pure no-op: nothing is raised, no
continuation effect occurs, no log is emitted, and the slot keeps its
prior value. -/
theorem dispatcher_nil_noop {σ : Type} (s : σ)
    (fn : wrapError → σ → Option PanicValue × σ) (T : GoType)
    (slot : Option GoErr) (us : σ)
    (fnC : Option GoErr × σ → Option GoErr × σ) (fnF : wrapError → σ → σ) :
    r none s fn = ⟨none, s, []⟩ ∧
    Catch T none slot = ⟨none, slot, []⟩ ∧
    CatchF T none slot us fnC = ⟨none, (slot, us), []⟩ ∧
    F none s fnF = ⟨none, s, []⟩ :=
  ⟨rfl, rfl, rfl, rfl⟩

/-- Claim C6: each `M` function raises the raw, non-enveloped error on a
non-nil error; such a raw panic is re-raised (not caught) by the recovery
dispatcher and its derived catchers; on nil the `M` functions return their
pass-through values unchanged. -/
theorem m_family_raw_unwind {A B C D σ : Type} (a : A) (b : B) (c : C) (d : D)
    (er : GoErr) (s : σ) (fn : wrapError → σ → Option PanicValue × σ)
    (T : GoType) (slot : Option GoErr) (us : σ)
    (fnC : Option GoErr × σ → Option GoErr × σ) (fnF : wrapError → σ → σ) :
    M (some er) = Except.error (PanicValue.rawErr er) ∧
    M1 a (some er) = Except.error (PanicValue.rawErr er) ∧
    M2 a b (some er) = Except.error (PanicValue.rawErr er) ∧
    M3 a b c (some er) = Except.error (PanicValue.rawErr er) ∧
    M4 a b c d (some er) = Except.error (PanicValue.rawErr er) ∧
    r (some (PanicValue.rawErr er)) s fn = ⟨some (PanicValue.rawErr er), s, []⟩ ∧
    Catch T (some (PanicValue.rawErr er)) slot
      = ⟨some (PanicValue.rawErr er), slot, []⟩ ∧
    CatchF T (some (PanicValue.rawErr er)) slot us fnC
      = ⟨some (PanicValue.rawErr er), (slot, us), []⟩ ∧
    F (some (PanicValue.rawErr er)) s fnF = ⟨some (PanicValue.rawErr er), s, []⟩ ∧
    M none = Except.ok () ∧
    M1 a none = Except.ok a ∧
    M2 a b none = Except.ok (a, b) ∧
    M3 a b c none = Except.ok (a, b, c) ∧
    M4 a b c d none = Except.ok (a, b, c, d) :=
  ⟨rfl, rfl, rfl, rfl, rfl, rfl, rfl, rfl, rfl, rfl, rfl, rfl, rfl, rfl⟩

/-- Claim C7: each `L` function always returns its k pass-through values
unchanged and never panics; on a non-nil error it emits exactly one
error-severity log record carrying the error's text, and none on nil. -/
theorem l_family_log_passthrough {A B C D : Type} (a : A) (b : B) (c : C)
    (d : D) (er : GoErr) :
    L none = ((), []) ∧
    L (some er) = ((), [⟨Level.error, er.msg⟩]) ∧
    L1 a none = (a, []) ∧
    L1 a (some er) = (a, [⟨Level.error, er.msg⟩]) ∧
    L2 a b none = ((a, b), []) ∧
    L2 a b (some er) = ((a, b), [⟨Level.error, er.msg⟩]) ∧
    L3 a b c none = ((a, b, c), []) ∧
    L3 a b c (some er) = ((a, b, c), [⟨Level.error, er.msg⟩]) ∧
    L4 a b c d none = ((a, b, c, d), []) ∧
    L4 a b c d (some er) = ((a, b, c, d), [⟨Level.error, er.msg⟩]) :=
  ⟨rfl, rfl, rfl, rfl, rfl, rfl, rfl, rfl, rfl, rfl⟩

/-- Claim C8: each assertion helper is a no-op exactly when its condition
holds (`Equal` iff `a = b`, `NotEqual` iff `a ≠ b`, `Zero` iff `a` is the
zero value, `NotZero` iff it is not) and otherwise elevates a generated
descriptive error through the same envelope path as `E`, so the resulting
unwind is caught by `Catch`. -/
theorem assertion_helpers_spec {α : Type} [DecidableEq α] (fmtv : α → String)
    (zeroVal : α) (stack : List Frame) (a b : α) (slot : Option GoErr) :
    (Equal fmtv stack a b = Except.ok () ↔ a = b) ∧
    (NotEqual fmtv stack a b = Except.ok () ↔ a ≠ b) ∧
    (Zero fmtv zeroVal stack a = Except.ok () ↔ a = zeroVal) ∧
    (NotZero fmtv zeroVal stack a = Except.ok () ↔ a ≠ zeroVal) ∧
    (a ≠ b → ∃ w : wrapError,
      Equal fmtv stack a b = Except.error (PanicValue.wrapErr w) ∧
      w.error = errorf ("try: not equal: " ++ fmtv a ++ " != " ++ fmtv b) ∧
      (Catch GoType.errorInterface (some (PanicValue.wrapErr w)) slot).panicked
        = none ∧
      (Catch GoType.errorInterface (some (PanicValue.wrapErr w)) slot).state
        = some w.error) := by
  refine ⟨?_, ?_, ?_, ?_, ?_⟩
  · by_cases hab : a = b <;> simp [Equal, hab]
  · by_cases hab : a = b <;> simp [NotEqual, hab]
  · by_cases haz : a = zeroVal <;> simp [Zero, haz]
  · by_cases haz : a = zeroVal <;> simp [NotZero, haz]
  · intro hab
    refine ⟨e (eFrame :: EqualFrame :: stack)
      (errorf ("try: not equal: " ++ fmtv a ++ " != " ++ fmtv b)), ?_, rfl, ?_, ?_⟩
    · simp [Equal, hab]
    · simp [Catch, r, instanceOf, e]
    · simp [Catch, r, instanceOf, e]

/-- Witness for C8: `Equal 1 2` elevates a catchable descriptive error. -/
theorem assertion_helpers_spec_witness :
    ∃ w : wrapError,
      Equal Nat.repr [⟨"main.go", 7⟩] (1 : Nat) 2
        = Except.error (PanicValue.wrapErr w) ∧
      w.error = errorf ("try: not equal: " ++ Nat.repr 1 ++ " != " ++ Nat.repr 2) ∧
      (Catch GoType.errorInterface (some (PanicValue.wrapErr w)) none).panicked
        = none ∧
      (Catch GoType.errorInterface (some (PanicValue.wrapErr w)) none).state
        = some w.error := by
  have h := assertion_helpers_spec Nat.repr 0 [⟨"main.go", 7⟩] 1 2 none
  exact h.2.2.2.2 (by decide)

/-- Claim C9: every elevation — through `E`, `E1`..`E4` or an assertion
helper — captures as the envelope's single location exactly the head frame
of the caller's stack, i.e. the literal source line of the elevation call,
not any internal frame; and `wrapError.Error` renders that line number. -/
theorem location_capture {A B C D α : Type} [DecidableEq α]
    (fr : Frame) (rest : List Frame) (er : GoErr)
    (a : A) (b : B) (c : C) (d : D) (fmtv : α → String) (x y z0 : α) :
    E (fr :: rest) (some er) = Except.error (PanicValue.wrapErr ⟨er, fr⟩) ∧
    E1 (fr :: rest) a (some er) = Except.error (PanicValue.wrapErr ⟨er, fr⟩) ∧
    E2 (fr :: rest) a b (some er) = Except.error (PanicValue.wrapErr ⟨er, fr⟩) ∧
    E3 (fr :: rest) a b c (some er) = Except.error (PanicValue.wrapErr ⟨er, fr⟩) ∧
    E4 (fr :: rest) a b c d (some er) = Except.error (PanicValue.wrapErr ⟨er, fr⟩) ∧
    (x ≠ y → ∃ w : wrapError,
      Equal fmtv (fr :: rest) x y = Except.error (PanicValue.wrapErr w) ∧
      w.pc = fr) ∧
    (x = y → ∃ w : wrapError,
      NotEqual fmtv (fr :: rest) x y = Except.error (PanicValue.wrapErr w) ∧
      w.pc = fr) ∧
    (x ≠ z0 → ∃ w : wrapError,
      Zero fmtv z0 (fr :: rest) x = Except.error (PanicValue.wrapErr w) ∧
      w.pc = fr) ∧
    (x = z0 → ∃ w : wrapError,
      NotZero fmtv z0 (fr :: rest) x = Except.error (PanicValue.wrapErr w) ∧
      w.pc = fr) ∧
    wrapError.Error ⟨er, fr⟩
      = baseName fr.file ++ ":" ++ toString fr.line ++ ": " ++ er.msg := by
  refine ⟨rfl, rfl, rfl, rfl, rfl, ?_, ?_, ?_, ?_, rfl⟩ <;> intro hc
  · exact ⟨e (eFrame :: EqualFrame :: fr :: rest)
      (errorf ("try: not equal: " ++ fmtv x ++ " != " ++ fmtv y)),
      by simp [Equal, hc], rfl⟩
  · exact ⟨e (eFrame :: NotEqualFrame :: fr :: rest)
      (errorf ("try: equal: " ++ fmtv x ++ " == " ++ fmtv y)),
      by simp [NotEqual, hc], rfl⟩
  · exact ⟨e (eFrame :: ZeroFrame :: fr :: rest)
      (errorf ("try: zero: " ++ fmtv x ++ " == " ++ fmtv z0)),
      by simp [Zero, hc], rfl⟩
  · exact ⟨e (eFrame :: NotZeroFrame :: fr :: rest)
      (errorf ("try: zero: " ++ fmtv x ++ " == " ++ fmtv z0)),
      by simp [NotZero, hc], rfl⟩

/-- Witness for C9: an `Equal` violation at `main.go:38` records line 38. -/
theorem location_capture_witness :
    ∃ w : wrapError,
      Equal Nat.repr [⟨"main.go", 38⟩] (3 : Nat) 4
        = Except.error (PanicValue.wrapErr w) ∧
      w.pc = ⟨"main.go", 38⟩ := by
  have h := location_capture (⟨"main.go", 38⟩ : Frame) [] (⟨"tag", "m"⟩ : GoErr)
    () () () () Nat.repr (3 : Nat) 4 0
  exact h.2.2.2.2.2.1 (by decide)

/-- Claim C10: on a type mismatch `CatchF` aborts with the slot and user
state untouched and the follow-up never invoked; on a match the slot is
assigned first and the follow-up then runs exactly once, observing the
already-assigned, non-nil cause. -/
theorem catchf_order {σ : Type} (T : GoType) (w : wrapError)
    (slot : Option GoErr) (us : σ)
    (fn : Option GoErr × σ → Option GoErr × σ) :
    (instanceOf w.error T = false →
      (CatchF T (some (PanicValue.wrapErr w)) slot us fn).state = (slot, us) ∧
      (CatchF T (some (PanicValue.wrapErr w)) slot us fn).panicked
        = some (PanicValue.str (mismatchMsg w.error))) ∧
    (instanceOf w.error T = true →
      (CatchF T (some (PanicValue.wrapErr w)) slot us fn).panicked = none ∧
      (CatchF T (some (PanicValue.wrapErr w)) slot us fn).state
        = fn (some w.error, us)) := by
  constructor <;> intro h <;> constructor <;> simp [CatchF, r, h]

/-- Witness for C10: a matching `CatchF` whose follow-up increments a
counter ends with the slot assigned and the counter at one. -/
theorem catchf_order_witness :
    (CatchF (GoType.concrete "*main.myErr")
        (some (PanicValue.wrapErr ⟨⟨"*main.myErr", "boom"⟩, ⟨"main.go", 5⟩⟩))
        none (0 : Nat) (fun p => (p.1, p.2 + 1))).state
      = (some (⟨"*main.myErr", "boom"⟩ : GoErr), 1) := by
  have h := catchf_order (GoType.concrete "*main.myErr")
    ⟨⟨"*main.myErr", "boom"⟩, ⟨"main.go", 5⟩⟩ none (0 : Nat)
    (fun p => (p.1, p.2 + 1))
  exact (h.2 (by decide)).2

end Try
